import Mathlib

/-!
# Verification of the order-creation / ticket-inventory workflow

Shallow embedding of the order workflow of an event-ticketing web
application.  The embedded implementations are:

* `OrderService` — the order-management service
  (`src/__tests__/integration/orderManagement.integration.test.ts`):
  `createOrder` and `updateStatus` over a concert map and an order list.
* `EventDetailService` — the event-detail purchase service
  (`src/unnamed/part_000`): `createOrder` with an authentication check.
* `createOrderAction` — the server action (`src/app/actions.ts`).
* `AdminActions.updateOrderStatus` — the admin order-status action
  (`src/app/admin/concerts/create/page.tsx`, second document).

TypeScript `number` fields that hold quantities, prices and ticket counts
are embedded as `Int` (all observed values are integers and negative values
are significant for the claims).  Fallible calls returning `{data, error}`
are embedded as `Except String α`, carrying the error message.  Record
fields not consulted by any embedded operation (title, location, image,
timestamps of the concert, …) are omitted.  Non-deterministic inputs
(the wall clock used for `created_at`) are passed as explicit parameters.
-/

/-- A concert / event inventory record.  Mirrors the fields of the
`Concert` fixtures (`src/__tests__/integration/fixtures/testData.ts`)
that the order workflow reads or writes. -/
structure Concert where
  id : String
  price : Int
  total_tickets : Int
  available_tickets : Int
  deriving Repr, DecidableEq

/-- An order record, as produced by `buildOrder`
(`src/__tests__/integration/fixtures/testData.ts`) and by the `orders`
table insert of `src/app/actions.ts`. -/
structure Order where
  id : String
  user_id : String
  concert_id : String
  quantity : Int
  total_price : Int
  status : String
  created_at : String
  deriving Repr, DecidableEq

/-- `get` on a TypeScript `Map` keyed by `String`, embedded as lookup of
the first binding in an association list. -/
def mapGet {α : Type} (m : List (String × α)) (k : String) : Option α :=
  (m.find? (fun p => p.1 == k)).map (fun p => p.2)

/-- `set` on a TypeScript `Map`: replace the binding of `k` if present
(first occurrence), otherwise append a new binding. -/
def mapSet {α : Type} (m : List (String × α)) (k : String) (v : α) :
    List (String × α) :=
  match m with
  | [] => [(k, v)]
  | (k₁, v₁) :: rest =>
      if k₁ == k then (k, v) :: rest else (k₁, v₁) :: mapSet rest k v

/-- `findIndex` followed by an assignment `l[index] = f l[index]`:
returns the matched element, its replacement, and the updated list;
`none` when `findIndex` returns `-1`. -/
def updateFirst {α : Type} (p : α → Bool) (f : α → α) :
    List α → Option (α × α × List α)
  | [] => none
  | a :: rest =>
      if p a then some (a, f a, f a :: rest)
      else
        match updateFirst p f rest with
        | none => none
        | some (o, o₂, rest₂) => some (o, o₂, a :: rest₂)

namespace OrderService

/-- The argument record of `OrderService.createOrder`; the `name`, `email`
and `phone` fields of the source `OrderInput` are never read by the
service and are omitted. -/
structure OrderInput where
  concertId : String
  quantity : Int
  userId : String
  deriving Repr, DecidableEq

/-- The mutable state of the `OrderService` class: the order list, the
concert map, the injected-error flag and message, and the id counter used
by the `buildOrder` factory. -/
structure State where
  orders : List Order
  concerts : List (String × Concert)
  shouldError : Bool
  errorMessage : String
  nextOrderId : Nat
  deriving Repr, DecidableEq

/-- `OrderService.createOrder`
(`src/__tests__/integration/orderManagement.integration.test.ts`,
lines 60–104).  Checks, in source order: injected error, concert
existence, ticket availability, quantity positivity, the 10-ticket
per-order maximum; then computes the total, appends the order (status
`"pending"`, id generated by the `buildOrder` counter, `created_at` from
the ambient clock `now`) and decrements the concert's availability. -/
def createOrder (st : State) (input : OrderInput) (now : String) :
    Except String Order × State :=
  if st.shouldError then (.error st.errorMessage, st)
  else
    match mapGet st.concerts input.concertId with
    | none => (.error "Concert not found", st)
    | some concert =>
        if concert.available_tickets < input.quantity then
          (.error "Not enough tickets available", st)
        else if input.quantity ≤ 0 then
          (.error "Invalid quantity", st)
        else if input.quantity > 10 then
          (.error "Maximum 10 tickets per order", st)
        else
          let total := concert.price * input.quantity
          let order : Order :=
            { id := "order-" ++ toString st.nextOrderId
              user_id := input.userId
              concert_id := input.concertId
              quantity := input.quantity
              total_price := total
              status := "pending"
              created_at := now }
          let concert₂ :=
            { concert with
                available_tickets := concert.available_tickets - input.quantity }
          (.ok order,
            { st with
                orders := st.orders ++ [order]
                concerts := mapSet st.concerts concert.id concert₂
                nextOrderId := st.nextOrderId + 1 })

/-- The `validTransitions` record of `OrderService.updateStatus`
(lines 119–123): `pending → {completed, cancelled}`, `completed → {}`,
`cancelled → {}`. -/
def validTransitions : List (String × List String) :=
  [("pending", ["completed", "cancelled"]),
   ("completed", []),
   ("cancelled", [])]

/-- `validTransitions[current]?.includes(target)`: a status outside the
record's keys yields `undefined`, which `?.includes` leaves falsy. -/
def transitionAllowed (current target : String) : Bool :=
  ((mapGet validTransitions current).getD []).contains target

/-- `OrderService.updateStatus` (lines 106–140).  Finds the order by id,
validates the transition, restores the concert's tickets when cancelling
(if the concert is present in the map), and overwrites the order with
`{ ...order, status }`. -/
def updateStatus (st : State) (orderId status : String) :
    Except String Order × State :=
  if st.shouldError then (.error st.errorMessage, st)
  else
    match updateFirst (fun o => o.id == orderId)
        (fun o => { o with status := status }) st.orders with
    | none => (.error "Order not found", st)
    | some (order, updated, orders₂) =>
        if transitionAllowed order.status status then
          let concerts₂ :=
            if status == "cancelled" then
              match mapGet st.concerts order.concert_id with
              | none => st.concerts
              | some concert =>
                  mapSet st.concerts concert.id
                    { concert with
                        available_tickets :=
                          concert.available_tickets + order.quantity }
            else st.concerts
          (.ok updated, { st with orders := orders₂, concerts := concerts₂ })
        else
          (.error ("Cannot transition from " ++ order.status ++ " to " ++ status),
            st)

end OrderService

namespace EventDetailService

/-- The `session` field of the `EventDetailService` class: the user of a
session, when one is set. -/
structure SessionUser where
  id : String
  email : String
  deriving Repr, DecidableEq

/-- The mutable state of the `EventDetailService` class
(`src/unnamed/part_000`). -/
structure State where
  concerts : List (String × Concert)
  orders : List Order
  session : Option SessionUser
  shouldError : Bool
  errorMessage : String
  nextOrderId : Nat
  deriving Repr, DecidableEq

/-- The result of `EventDetailService.checkAuthentication`
(`src/unnamed/part_000`, lines 82–87). -/
structure AuthCheck where
  authenticated : Bool
  redirectUrl : Option String
  deriving Repr, DecidableEq

/-- `EventDetailService.checkAuthentication`: unauthenticated sessions
redirect to the login page. -/
def checkAuthentication (st : State) : AuthCheck :=
  match st.session with
  | none => { authenticated := false, redirectUrl := some "/auth/login" }
  | some _ => { authenticated := true, redirectUrl := none }

/-- The argument record of `EventDetailService.createOrder`. -/
structure OrderInput where
  concertId : String
  quantity : Int
  userId : String
  deriving Repr, DecidableEq

/-- `EventDetailService.createOrder` (`src/unnamed/part_000`,
lines 92–138).  Checks, in source order: injected error, authentication,
concert existence, quantity positivity, ticket availability; then
computes the total, appends the order (status `"pending"`) and decrements
the concert's availability. -/
def createOrder (st : State) (input : OrderInput) (now : String) :
    Except String Order × State :=
  if st.shouldError then (.error st.errorMessage, st)
  else if (checkAuthentication st).authenticated = false then
    (.error "Please login to purchase tickets", st)
  else
    match mapGet st.concerts input.concertId with
    | none => (.error "Event not found", st)
    | some concert =>
        if input.quantity ≤ 0 then
          (.error "Pilih jumlah tiket dulu.", st)
        else if concert.available_tickets < input.quantity then
          (.error "Not enough tickets available", st)
        else
          let totalPrice := concert.price * input.quantity
          let order : Order :=
            { id := "order-" ++ toString st.nextOrderId
              user_id := input.userId
              concert_id := input.concertId
              quantity := input.quantity
              total_price := totalPrice
              status := "pending"
              created_at := now }
          let concert₂ :=
            { concert with
                available_tickets := concert.available_tickets - input.quantity }
          (.ok order,
            { st with
                orders := st.orders ++ [order]
                concerts := mapSet st.concerts concert.id concert₂
                nextOrderId := st.nextOrderId + 1 })

end EventDetailService

/-- The persistent store behind the server actions: the `concerts` and
`orders` tables, plus the id counter of the database's generated order
ids. -/
structure Db where
  concerts : List Concert
  orders : List Order
  nextOrderId : Nat
  deriving Repr, DecidableEq

/-- One store call performed by `createOrderAction`, recorded in order of
execution so that "no store operation is performed" is statable. -/
inductive StoreOp where
  | readConcert (id : String)
  | insertOrder (o : Order)
  | updateConcert (id : String) (available : Int)
  deriving Repr, DecidableEq

/-- `createOrderAction` (`src/app/actions.ts`, lines 8–68).
`sessionUserId` is the result of the `session?.user?.id` chain (`none`
for a missing session or user; the empty string is falsy in the source's
`if (!session?.user?.id)` test and is rejected the same way).  Reads the
concert, requires `available_tickets ≥ quantity` (no positivity or
upper-bound check), inserts the order with status `"success"`, then
writes the decremented availability.  Returns the result, the updated
store, and the trace of store calls. -/
def createOrderAction (db : Db) (sessionUserId : Option String)
    (concertId : String) (quantity : Int) (now : String) :
    Except String Order × Db × List StoreOp :=
  match sessionUserId with
  | none => (.error "User not authenticated", db, [])
  | some uid =>
      if uid = "" then (.error "User not authenticated", db, [])
      else
        match db.concerts.find? (fun c => c.id == concertId) with
        | none => (.error "Concert not found", db, [.readConcert concertId])
        | some concert =>
            if concert.available_tickets < quantity then
              (.error "Not enough tickets available", db,
                [.readConcert concertId])
            else
              let totalPrice := concert.price * quantity
              let order : Order :=
                { id := "order-" ++ toString db.nextOrderId
                  user_id := uid
                  concert_id := concertId
                  quantity := quantity
                  total_price := totalPrice
                  status := "success"
                  created_at := now }
              let newAvail := concert.available_tickets - quantity
              let db₂ : Db :=
                { concerts :=
                    db.concerts.map (fun c =>
                      if c.id == concertId then
                        { c with available_tickets := newAvail }
                      else c)
                  orders := db.orders ++ [order]
                  nextOrderId := db.nextOrderId + 1 }
              (.ok order, db₂,
                [.readConcert concertId, .insertOrder order,
                 .updateConcert concertId newAvail])

namespace AdminActions

/-- The `session?.user` value seen by `checkAdmin`
(`src/app/admin/concerts/create/page.tsx`, second document,
lines 21–27): `none` when the session or its user is missing. -/
structure SessionUser where
  id : String
  role : String
  deriving Repr, DecidableEq

/-- `checkAdmin`: rejects a missing user or a non-admin role. -/
def checkAdmin (sessionUser : Option SessionUser) : Except String Unit :=
  match sessionUser with
  | none => .error "Unauthorized"
  | some u => if u.role ≠ "admin" then .error "Unauthorized" else .ok ()

/-- The `allowedTransitions` record of `updateOrderStatus`
(lines 174–178): `pending → {pending, success, cancelled}`,
`success → {success, cancelled}`, `cancelled → {cancelled}`. -/
def allowedTransitions : List (String × List String) :=
  [("pending", ["pending", "success", "cancelled"]),
   ("success", ["success", "cancelled"]),
   ("cancelled", ["cancelled"])]

/-- `allowedTransitions[current] || []` followed by `.includes(target)`. -/
def transitionAllowed (current target : String) : Bool :=
  ((mapGet allowedTransitions current).getD []).contains target

/-- `updateOrderStatus` (`src/app/admin/concerts/create/page.tsx`, second
document, lines 158–188).  After the admin check it fetches the order's
current status, validates the transition against `allowedTransitions`,
and updates the `status` column of the matching rows.  It performs no
write to the `concerts` table. -/
def updateOrderStatus (db : Db) (sessionUser : Option SessionUser)
    (id newStatus : String) : Except String Unit × Db :=
  match checkAdmin sessionUser with
  | .error e => (.error e, db)
  | .ok _ =>
      match db.orders.find? (fun o => o.id == id) with
      | none => (.error "Order not found", db)
      | some order =>
          if transitionAllowed order.status newStatus then
            (.ok (),
              { db with
                  orders :=
                    db.orders.map (fun o =>
                      if o.id == id then { o with status := newStatus }
                      else o) })
          else
            (.error ("Cannot change status from \"" ++ order.status ++
                "\" to \"" ++ newStatus ++ "\""), db)

end AdminActions

/-! ## Transition system of the order-management service, and spec-side
transition tables used to compare the code against the specification -/

/-- One workflow operation of the order-management service: an order
creation or a status update. -/
inductive OSOp where
  | create (input : OrderService.OrderInput) (now : String)
  | update (orderId status : String)
  deriving Repr, DecidableEq

/-- The state reached after one operation (the returned value is
dropped). -/
def applyOp (st : OrderService.State) : OSOp → OrderService.State
  | .create input now => (OrderService.createOrder st input now).2
  | .update orderId status => (OrderService.updateStatus st orderId status).2

/-- The state reached after a sequence of operations. -/
def runOps (st : OrderService.State) (ops : List OSOp) : OrderService.State :=
  ops.foldl applyOp st

/-- Total quantity held by the non-cancelled orders that reference the
concert key `cid`. -/
def activeQty (orders : List Order) (cid : String) : Int :=
  ((orders.filter (fun o => o.concert_id == cid && o.status != "cancelled")).map
    (fun o => o.quantity)).sum

/-- Ledger consistency of an order-management state: order quantities are
non-negative, every concert binding is keyed by the concert's own id, the
availability is non-negative, and availability plus the quantity held by
non-cancelled orders fits within capacity.  It implies
`0 ≤ available_tickets ≤ total_tickets` for every stored concert. -/
def Consistent (st : OrderService.State) : Prop :=
  (∀ o ∈ st.orders, 0 ≤ o.quantity) ∧
  (∀ k c, mapGet st.concerts k = some c →
    c.id = k ∧ 0 ≤ c.available_tickets ∧
    c.available_tickets + activeQty st.orders k ≤ c.total_tickets)

/-- The status-transition relation asserted by the specification:
`pending → success`, `pending → cancelled`, `success → cancelled` and
nothing else.  The parameter `success` is the vocabulary used for the
success state (`"success"` in the admin action, `"completed"` in the
order-management service). -/
def specAllowedTransition (success current target : String) : Bool :=
  (current == "pending" && (target == success || target == "cancelled")) ||
  (current == success && target == "cancelled")

/-- The transition relation actually implemented by the admin
`updateOrderStatus` table, spelled out as a relation on status pairs. -/
def adminObservedTransition (current target : String) : Bool :=
  (current == "pending" &&
    (target == "pending" || target == "success" || target == "cancelled")) ||
  (current == "success" && (target == "success" || target == "cancelled")) ||
  (current == "cancelled" && target == "cancelled")

/-- The transition relation actually implemented by the order-management
service's table, spelled out as a relation on status pairs. -/
def osObservedTransition (current target : String) : Bool :=
  current == "pending" && (target == "completed" || target == "cancelled")

/-! ## Helper lemmas about the map and list-update embeddings -/

theorem mapGet_nil {α : Type} (k : String) :
    mapGet ([] : List (String × α)) k = none := by
  simp [mapGet, List.find?]

theorem mapGet_cons {α : Type} (k₁ : String) (v₁ : α)
    (m : List (String × α)) (k₂ : String) :
    mapGet ((k₁, v₁) :: m) k₂ =
      if k₁ == k₂ then some v₁ else mapGet m k₂ := by
  cases h : (k₁ == k₂) <;> simp [mapGet, List.find?, h]

theorem mapSet_nil {α : Type} (k : String) (v : α) :
    mapSet ([] : List (String × α)) k v = [(k, v)] := rfl

theorem mapSet_cons {α : Type} (k₁ : String) (v₁ : α)
    (m : List (String × α)) (k : String) (v : α) :
    mapSet ((k₁, v₁) :: m) k v =
      if k₁ == k then (k, v) :: m else (k₁, v₁) :: mapSet m k v := rfl

theorem mapGet_mapSet_self {α : Type} (m : List (String × α)) (k : String)
    (v : α) : mapGet (mapSet m k v) k = some v := by
  induction m with
  | nil => rw [mapSet_nil, mapGet_cons]; simp
  | cons p rest ih =>
      obtain ⟨k₁, v₁⟩ := p
      rw [mapSet_cons]
      by_cases h : k₁ = k
      · simp [h, mapGet_cons]
      · have hb : (k₁ == k) = false := beq_eq_false_iff_ne.mpr h
        rw [if_neg (by simp [h]), mapGet_cons, if_neg (by simp [hb]), ih]

theorem mapGet_mapSet_ne {α : Type} (m : List (String × α)) (k k₂ : String)
    (v : α) (h : k₂ ≠ k) : mapGet (mapSet m k v) k₂ = mapGet m k₂ := by
  have hkk : (k == k₂) = false := beq_eq_false_iff_ne.mpr (Ne.symm h)
  induction m with
  | nil => simp [mapSet_nil, mapGet_cons, mapGet_nil, hkk]
  | cons p rest ih =>
      obtain ⟨k₁, v₁⟩ := p
      rw [mapSet_cons]
      by_cases h₁ : k₁ = k
      · subst h₁
        rw [if_pos (by simp), mapGet_cons, mapGet_cons, hkk]
        simp [hkk]
      · rw [if_neg (by simp [h₁]), mapGet_cons, mapGet_cons, ih]

theorem updateFirst_decomp {α : Type} (p : α → Bool) (f : α → α) :
    ∀ (l : List α) (o o₂ : α) (l' : List α),
      updateFirst p f l = some (o, o₂, l') →
      p o = true ∧ o₂ = f o ∧
        ∃ l₁ l₂, l = l₁ ++ o :: l₂ ∧ l' = l₁ ++ f o :: l₂ ∧
          ∀ x ∈ l₁, p x = false := by
  intro l
  induction l with
  | nil => intro o o₂ l' h; simp [updateFirst] at h
  | cons a rest ih =>
      intro o o₂ l' h
      cases ha : p a with
      | true =>
          simp only [updateFirst] at h
          rw [if_pos ha] at h
          simp only [Option.some.injEq, Prod.mk.injEq] at h
          obtain ⟨rfl, rfl, rfl⟩ := h
          exact ⟨ha, rfl, [], rest, rfl, rfl, by simp⟩
      | false =>
          simp only [updateFirst] at h
          rw [if_neg (by simp [ha])] at h
          cases hrec : updateFirst p f rest with
          | none => rw [hrec] at h; simp at h
          | some trip =>
              obtain ⟨o₁, o₃, rest₂⟩ := trip
              rw [hrec] at h
              simp only [Option.some.injEq, Prod.mk.injEq] at h
              obtain ⟨rfl, rfl, rfl⟩ := h
              obtain ⟨hp, hfo, l₁, l₂, hl, hl', hfalse⟩ := ih _ _ _ hrec
              refine ⟨hp, hfo, a :: l₁, l₂, by simp [hl], by simp [hl'], ?_⟩
              intro x hx
              rcases List.mem_cons.mp hx with h | h
              · subst h; exact ha
              · exact hfalse x h

theorem find_append_first {α : Type} (p : α → Bool) (l₁ : List α) (o : α)
    (l₂ : List α) (hfalse : ∀ x ∈ l₁, p x = false) (hp : p o = true) :
    (l₁ ++ o :: l₂).find? p = some o := by
  induction l₁ with
  | nil => simp [List.find?_cons_of_pos _ hp]
  | cons a t ih =>
      have ha : p a = false := hfalse a (by simp)
      rw [List.cons_append, List.find?_cons_of_neg _ (by simp [ha])]
      exact ih (fun x hx => hfalse x (by simp [hx]))

theorem updateFirst_of_find {α : Type} (p : α → Bool) (f : α → α) :
    ∀ (l : List α) (o : α), l.find? p = some o →
      ∃ l', updateFirst p f l = some (o, f o, l') := by
  intro l
  induction l with
  | nil => intro o h; simp [List.find?] at h
  | cons a rest ih =>
      intro o h
      cases ha : p a with
      | true =>
          rw [List.find?_cons_of_pos _ ha] at h
          cases h
          exact ⟨f a :: rest, by simp only [updateFirst]; rw [if_pos ha]⟩
      | false =>
          rw [List.find?_cons_of_neg _ (by simp [ha])] at h
          obtain ⟨l', hl'⟩ := ih o h
          refine ⟨a :: l', ?_⟩
          simp only [updateFirst]
          rw [if_neg (by simp [ha]), hl']

theorem find_of_updateFirst {α : Type} (p : α → Bool) (f : α → α)
    (l : List α) (o o₂ : α) (l' : List α)
    (h : updateFirst p f l = some (o, o₂, l')) : l.find? p = some o := by
  obtain ⟨hp, _, l₁, l₂, hl, _, hfalse⟩ := updateFirst_decomp p f l o o₂ l' h
  subst hl
  exact find_append_first p l₁ o l₂ hfalse hp

theorem find_map_update {α : Type} (p : α → Bool) (f : α → α)
    (hp : ∀ a, p (f a) = p a) :
    ∀ (l : List α) (o : α), l.find? p = some o →
      (l.map (fun a => if p a then f a else a)).find? p = some (f o) := by
  intro l
  induction l with
  | nil => intro o h; simp [List.find?] at h
  | cons a rest ih =>
      intro o h
      cases ha : p a with
      | true =>
          rw [List.find?_cons_of_pos _ ha] at h
          cases h
          rw [List.map_cons, if_pos ha,
            List.find?_cons_of_pos _ (by rw [hp]; exact ha)]
      | false =>
          rw [List.find?_cons_of_neg _ (by simp [ha])] at h
          rw [List.map_cons, if_neg (by simp [ha]),
            List.find?_cons_of_neg _ (by simp [ha])]
          exact ih o h

/-- The order-management transition table, characterized as a relation on
status pairs. -/
theorem os_transitionAllowed_eq (current target : String) :
    OrderService.transitionAllowed current target = true ↔
      osObservedTransition current target = true := by
  simp only [OrderService.transitionAllowed, OrderService.validTransitions,
    mapGet_cons, mapGet_nil, osObservedTransition]
  split_ifs with h₁ h₂ h₃
  · obtain rfl : "pending" = current := eq_of_beq h₁
    simp
  · obtain rfl : "completed" = current := eq_of_beq h₂
    simp
  · obtain rfl : "cancelled" = current := eq_of_beq h₃
    simp
  · have b₁ : (current == "pending") = false :=
      beq_eq_false_iff_ne.mpr (fun h => h₁ (by simp [h]))
    have b₂ : (current == "completed") = false :=
      beq_eq_false_iff_ne.mpr (fun h => h₂ (by simp [h]))
    simp [b₁, b₂]

/-- The admin transition table, characterized as a relation on status
pairs. -/
theorem admin_transitionAllowed_eq (current target : String) :
    AdminActions.transitionAllowed current target = true ↔
      adminObservedTransition current target = true := by
  simp only [AdminActions.transitionAllowed, AdminActions.allowedTransitions,
    mapGet_cons, mapGet_nil, adminObservedTransition]
  split_ifs with h₁ h₂ h₃
  · obtain rfl : "pending" = current := eq_of_beq h₁
    simp [or_assoc]
  · obtain rfl : "success" = current := eq_of_beq h₂
    simp
  · obtain rfl : "cancelled" = current := eq_of_beq h₃
    simp
  · have b₁ : (current == "pending") = false :=
      beq_eq_false_iff_ne.mpr (fun h => h₁ (by simp [h]))
    have b₂ : (current == "success") = false :=
      beq_eq_false_iff_ne.mpr (fun h => h₂ (by simp [h]))
    have b₃ : (current == "cancelled") = false :=
      beq_eq_false_iff_ne.mpr (fun h => h₃ (by simp [h]))
    simp [b₁, b₂, b₃]

/-- In the order-management table, an allowed transition starts at
`pending` and targets `completed` or `cancelled`. -/
theorem os_transitionAllowed_true_iff (current target : String) :
    OrderService.transitionAllowed current target = true ↔
      current = "pending" ∧ (target = "completed" ∨ target = "cancelled") := by
  rw [os_transitionAllowed_eq]
  simp [osObservedTransition]

/-- **C10**: `createOrderAction` applies no positivity check and no
upper-bound check on the quantity: for every authenticated session,
existing concert, and quantity `q` — including `q = 0` and negative
`q` — with `available_tickets ≥ q`, it succeeds, appends an order with
that quantity, status `"success"` and `total_price = price * q`, and
stores `available_tickets - q` as the concert's new availability (so a
negative quantity increases the stored availability). -/
theorem C10_action_no_quantity_validation
    (db : Db) (uid concertId now : String) (q : Int) (c : Concert)
    (huid : uid ≠ "")
    (hfind : db.concerts.find? (fun x => x.id == concertId) = some c)
    (havail : q ≤ c.available_tickets) :
    (createOrderAction db (some uid) concertId q now).1 =
      .ok { id := "order-" ++ toString db.nextOrderId, user_id := uid,
            concert_id := concertId, quantity := q,
            total_price := c.price * q, status := "success",
            created_at := now } ∧
    (createOrderAction db (some uid) concertId q now).2.1.orders =
      db.orders ++
        [{ id := "order-" ++ toString db.nextOrderId, user_id := uid,
           concert_id := concertId, quantity := q,
           total_price := c.price * q, status := "success",
           created_at := now }] ∧
    (createOrderAction db (some uid) concertId q now).2.1.concerts.find?
        (fun x => x.id == concertId) =
      some { c with available_tickets := c.available_tickets - q } := by
  have hnl : ¬ (c.available_tickets < q) := not_lt.mpr havail
  simp only [createOrderAction]
  rw [if_neg huid, hfind]
  dsimp only
  rw [if_neg hnl]
  refine ⟨rfl, rfl, ?_⟩
  exact find_map_update (fun x => x.id == concertId)
    (fun x => { x with available_tickets := c.available_tickets - q })
    (fun a => rfl) db.concerts c hfind

/-- Witness for C10 at a concrete store: quantity `-3` against a concert
with 5 available tickets succeeds and raises the availability to 8. -/
theorem C10_action_no_quantity_validation_witness :
    (("u1" : String) ≠ "" ∧
      (Db.mk [⟨"c1", 50, 10, 5⟩] [] 1).concerts.find?
          (fun x => x.id == "c1") = some ⟨"c1", 50, 10, 5⟩ ∧
      (-3 : Int) ≤ 5) ∧
    ((createOrderAction (Db.mk [⟨"c1", 50, 10, 5⟩] [] 1) (some "u1") "c1"
          (-3) "t").1 =
        .ok { id := "order-" ++ toString 1, user_id := "u1",
              concert_id := "c1", quantity := -3,
              total_price := 50 * (-3), status := "success",
              created_at := "t" } ∧
      (createOrderAction (Db.mk [⟨"c1", 50, 10, 5⟩] [] 1) (some "u1") "c1"
          (-3) "t").2.1.orders =
        [] ++
          [{ id := "order-" ++ toString 1, user_id := "u1",
             concert_id := "c1", quantity := -3,
             total_price := 50 * (-3), status := "success",
             created_at := "t" }] ∧
      (createOrderAction (Db.mk [⟨"c1", 50, 10, 5⟩] [] 1) (some "u1") "c1"
          (-3) "t").2.1.concerts.find? (fun x => x.id == "c1") =
        some { id := "c1", price := 50, total_tickets := 10,
               available_tickets := 5 - (-3) }) :=
  ⟨⟨by decide, by decide, by decide⟩,
    C10_action_no_quantity_validation (Db.mk [⟨"c1", 50, 10, 5⟩] [] 1)
      "u1" "c1" "t" (-3) ⟨"c1", 50, 10, 5⟩ (by decide) (by decide)
      (by decide)⟩

/-- **C7**: an unauthenticated actor fails with the authentication error
before any store operation is performed: `createOrderAction` returns the
error with an unchanged store and an empty trace of store calls, and
`EventDetailService.createOrder` (absent an injected store failure)
returns its login error with an unchanged state. -/
theorem C7_unauthenticated_no_side_effects
    (db : Db) (concertId now : String) (q : Int) (s : Option String)
    (st : EventDetailService.State) (input : EventDetailService.OrderInput)
    (now₂ : String)
    (hs : s = none ∨ s = some "")
    (hsession : st.session = none) (hse : st.shouldError = false) :
    createOrderAction db s concertId q now =
      (.error "User not authenticated", db, []) ∧
    EventDetailService.createOrder st input now₂ =
      (.error "Please login to purchase tickets", st) := by
  constructor
  · rcases hs with rfl | rfl
    · rfl
    · simp only [createOrderAction]
      rw [if_pos trivial]
  · have hauth : (EventDetailService.checkAuthentication st).authenticated = false := by
      simp [EventDetailService.checkAuthentication, hsession]
    simp only [EventDetailService.createOrder]
    rw [if_neg (by simp [hse]), if_pos hauth]

/-- Witness for C7: a missing session leaves a one-concert store
untouched, with an empty trace, in both implementations. -/
theorem C7_unauthenticated_no_side_effects_witness :
    ((none : Option String) = none ∨ (none : Option String) = some "") ∧
    (EventDetailService.State.mk [("c1", ⟨"c1", 50, 10, 10⟩)] [] none false
        "Database error" 1).session = none ∧
    (createOrderAction (Db.mk [⟨"c1", 50, 10, 10⟩] [] 1) none "c1" 2 "t" =
        (.error "User not authenticated", Db.mk [⟨"c1", 50, 10, 10⟩] [] 1,
          []) ∧
      EventDetailService.createOrder
          (EventDetailService.State.mk [("c1", ⟨"c1", 50, 10, 10⟩)] [] none
            false "Database error" 1) ⟨"c1", 2, "u1"⟩ "t" =
        (.error "Please login to purchase tickets",
          EventDetailService.State.mk [("c1", ⟨"c1", 50, 10, 10⟩)] [] none
            false "Database error" 1)) :=
  ⟨Or.inl rfl, rfl,
    C7_unauthenticated_no_side_effects (Db.mk [⟨"c1", 50, 10, 10⟩] [] 1)
      "c1" "t" 2 none
      (EventDetailService.State.mk [("c1", ⟨"c1", 50, 10, 10⟩)] [] none false
        "Database error" 1) ⟨"c1", 2, "u1"⟩ "t" (Or.inl rfl) rfl rfl⟩

/-- **C6**: a quantity strictly greater than the availability fails with
the insufficient-inventory error, appends no order, and leaves the
stored availability unchanged, in both `createOrderAction` and
`OrderService.createOrder`. -/
theorem C6_insufficient_inventory
    (db : Db) (uid concertId now : String) (q : Int) (c : Concert)
    (st : OrderService.State) (input : OrderService.OrderInput)
    (now₂ : String) (c₂ : Concert)
    (huid : uid ≠ "")
    (hfind : db.concerts.find? (fun x => x.id == concertId) = some c)
    (hlt : c.available_tickets < q)
    (hse : st.shouldError = false)
    (hget : mapGet st.concerts input.concertId = some c₂)
    (hlt₂ : c₂.available_tickets < input.quantity) :
    createOrderAction db (some uid) concertId q now =
      (.error "Not enough tickets available", db, [.readConcert concertId]) ∧
    OrderService.createOrder st input now₂ =
      (.error "Not enough tickets available", st) := by
  constructor
  · simp only [createOrderAction]
    rw [if_neg huid, hfind]
    dsimp only
    rw [if_pos hlt]
  · simp only [OrderService.createOrder]
    rw [if_neg (by simp [hse]), hget]
    dsimp only
    rw [if_pos hlt₂]

/-- Witness for C6: ordering 11 tickets against 10 available fails and
leaves both stores unchanged. -/
theorem C6_insufficient_inventory_witness :
    (("u1" : String) ≠ "" ∧
      (Db.mk [⟨"c1", 50, 10, 10⟩] [] 1).concerts.find?
          (fun x => x.id == "c1") = some ⟨"c1", 50, 10, 10⟩ ∧
      (10 : Int) < 11 ∧
      mapGet [("c1", (⟨"c1", 50, 10, 10⟩ : Concert))] "c1" =
        some ⟨"c1", 50, 10, 10⟩) ∧
    (createOrderAction (Db.mk [⟨"c1", 50, 10, 10⟩] [] 1) (some "u1") "c1" 11
        "t" =
      (.error "Not enough tickets available", Db.mk [⟨"c1", 50, 10, 10⟩] [] 1,
        [.readConcert "c1"]) ∧
    OrderService.createOrder
        (OrderService.State.mk [] [("c1", ⟨"c1", 50, 10, 10⟩)] false
          "Database error" 1) ⟨"c1", 11, "u1"⟩ "t" =
      (.error "Not enough tickets available",
        OrderService.State.mk [] [("c1", ⟨"c1", 50, 10, 10⟩)] false
          "Database error" 1)) :=
  ⟨⟨by decide, by decide, by decide, by decide⟩,
    C6_insufficient_inventory (Db.mk [⟨"c1", 50, 10, 10⟩] [] 1) "u1" "c1"
      "t" 11 ⟨"c1", 50, 10, 10⟩
      (OrderService.State.mk [] [("c1", ⟨"c1", 50, 10, 10⟩)] false
        "Database error" 1) ⟨"c1", 11, "u1"⟩ "t" ⟨"c1", 50, 10, 10⟩
      (by decide) (by decide) (by decide) rfl (by decide) (by decide)⟩

/-- **C5, counterexample**: `createOrderAction` performs no quantity
check: quantity `0` against an existing concert succeeds and an order is
created, where the claim requires an `InvalidQuantity` failure with no
order. -/
theorem C5_counterexample_action_zero_quantity :
    (createOrderAction (Db.mk [⟨"c1", 50, 10, 10⟩] [] 1) (some "u1") "c1" 0
        "t").1 =
      .ok { id := "order-1", user_id := "u1", concert_id := "c1",
            quantity := 0, total_price := 0, status := "success",
            created_at := "t" } ∧
    (createOrderAction (Db.mk [⟨"c1", 50, 10, 10⟩] [] 1) (some "u1") "c1" 0
        "t").2.1.orders =
      [{ id := "order-1", user_id := "u1", concert_id := "c1",
         quantity := 0, total_price := 0, status := "success",
         created_at := "t" }] :=
  ⟨rfl, rfl⟩

/-- **C5, amended**: for every quantity `≤ 0`, `OrderService.createOrder`
(when the referenced concert exists and its availability is at least the
quantity) and `EventDetailService.createOrder` (when authenticated and
the concert exists) fail with their invalid-quantity message and leave
the state unchanged; `createOrderAction` performs no such check. -/
theorem C5_amended_invalid_quantity
    (st : OrderService.State) (input : OrderService.OrderInput)
    (now : String) (c : Concert)
    (st₂ : EventDetailService.State) (input₂ : EventDetailService.OrderInput)
    (now₂ : String) (c₂ : Concert) (u : EventDetailService.SessionUser)
    (hse : st.shouldError = false)
    (hget : mapGet st.concerts input.concertId = some c)
    (havail : input.quantity ≤ c.available_tickets)
    (hq : input.quantity ≤ 0)
    (hse₂ : st₂.shouldError = false)
    (hsession : st₂.session = some u)
    (hget₂ : mapGet st₂.concerts input₂.concertId = some c₂)
    (hq₂ : input₂.quantity ≤ 0) :
    OrderService.createOrder st input now = (.error "Invalid quantity", st) ∧
    EventDetailService.createOrder st₂ input₂ now₂ =
      (.error "Pilih jumlah tiket dulu.", st₂) := by
  constructor
  · simp only [OrderService.createOrder]
    rw [if_neg (by simp [hse]), hget]
    dsimp only
    rw [if_neg (not_lt.mpr havail), if_pos hq]
  · have hauth : ¬((EventDetailService.checkAuthentication st₂).authenticated = false) := by
      simp [EventDetailService.checkAuthentication, hsession]
    simp only [EventDetailService.createOrder]
    rw [if_neg (by simp [hse₂]), if_neg hauth, hget₂]
    dsimp only
    rw [if_pos hq₂]

/-- Witness for the amended C5: quantity `0` is rejected by both
services at a concrete state. -/
theorem C5_amended_invalid_quantity_witness :
    (mapGet [("c1", (⟨"c1", 50, 10, 10⟩ : Concert))] "c1" =
        some ⟨"c1", 50, 10, 10⟩ ∧ (0 : Int) ≤ 10 ∧ (0 : Int) ≤ 0) ∧
    (OrderService.createOrder
        (OrderService.State.mk [] [("c1", ⟨"c1", 50, 10, 10⟩)] false
          "Database error" 1) ⟨"c1", 0, "u1"⟩ "t" =
      (.error "Invalid quantity",
        OrderService.State.mk [] [("c1", ⟨"c1", 50, 10, 10⟩)] false
          "Database error" 1) ∧
    EventDetailService.createOrder
        (EventDetailService.State.mk [("c1", ⟨"c1", 50, 10, 10⟩)] []
          (some ⟨"u1", "u@e"⟩) false "Database error" 1) ⟨"c1", 0, "u1"⟩
        "t" =
      (.error "Pilih jumlah tiket dulu.",
        EventDetailService.State.mk [("c1", ⟨"c1", 50, 10, 10⟩)] []
          (some ⟨"u1", "u@e"⟩) false "Database error" 1)) :=
  ⟨⟨by decide, by decide, by decide⟩,
    C5_amended_invalid_quantity
      (OrderService.State.mk [] [("c1", ⟨"c1", 50, 10, 10⟩)] false
        "Database error" 1) ⟨"c1", 0, "u1"⟩ "t" ⟨"c1", 50, 10, 10⟩
      (EventDetailService.State.mk [("c1", ⟨"c1", 50, 10, 10⟩)] []
        (some ⟨"u1", "u@e"⟩) false "Database error" 1) ⟨"c1", 0, "u1"⟩ "t"
      ⟨"c1", 50, 10, 10⟩ ⟨"u1", "u@e"⟩
      rfl (by decide) (by decide) (by decide) rfl rfl (by decide)
      (by decide)⟩

/-- **C1, counterexample**: `OrderService.createOrder` enforces a
10-ticket per-order maximum, so a quantity of 11 against 100 available
tickets fails where the claim requires success. -/
theorem C1_counterexample_orderService_max10 :
    OrderService.createOrder
        (OrderService.State.mk [] [("c1", ⟨"c1", 50, 100, 100⟩)] false
          "Database error" 1) ⟨"c1", 11, "u1"⟩ "t" =
      (.error "Maximum 10 tickets per order",
        OrderService.State.mk [] [("c1", ⟨"c1", 50, 100, 100⟩)] false
          "Database error" 1) :=
  rfl

/-- **C1, amended**: with an authenticated actor, an existing event and
`0 < quantity ≤ available_tickets`, order creation succeeds with
`total_price = price * quantity` and the stored availability decreased
by exactly the quantity — in `OrderService.createOrder` only under the
additional bound `quantity ≤ 10`, and in
`EventDetailService.createOrder` and `createOrderAction`
unconditionally. -/
theorem C1_amended_create_success
    (st : OrderService.State) (input : OrderService.OrderInput)
    (now : String) (c : Concert)
    (st₂ : EventDetailService.State) (input₂ : EventDetailService.OrderInput)
    (now₂ : String) (c₂ : Concert) (u : EventDetailService.SessionUser)
    (db : Db) (uid concertId now₃ : String) (q₃ : Int) (c₃ : Concert)
    (hse : st.shouldError = false)
    (hget : mapGet st.concerts input.concertId = some c)
    (hid : c.id = input.concertId)
    (hpos : 0 < input.quantity)
    (havail : input.quantity ≤ c.available_tickets)
    (hmax : input.quantity ≤ 10)
    (hse₂ : st₂.shouldError = false)
    (hsession : st₂.session = some u)
    (hget₂ : mapGet st₂.concerts input₂.concertId = some c₂)
    (hid₂ : c₂.id = input₂.concertId)
    (hpos₂ : 0 < input₂.quantity)
    (havail₂ : input₂.quantity ≤ c₂.available_tickets)
    (huid : uid ≠ "")
    (hfind : db.concerts.find? (fun x => x.id == concertId) = some c₃)
    (hpos₃ : 0 < q₃) (havail₃ : q₃ ≤ c₃.available_tickets) :
    ((OrderService.createOrder st input now).1 =
        .ok { id := "order-" ++ toString st.nextOrderId,
              user_id := input.userId, concert_id := input.concertId,
              quantity := input.quantity,
              total_price := c.price * input.quantity, status := "pending",
              created_at := now } ∧
      mapGet (OrderService.createOrder st input now).2.concerts
          input.concertId =
        some { c with
                available_tickets := c.available_tickets - input.quantity }) ∧
    ((EventDetailService.createOrder st₂ input₂ now₂).1 =
        .ok { id := "order-" ++ toString st₂.nextOrderId,
              user_id := input₂.userId, concert_id := input₂.concertId,
              quantity := input₂.quantity,
              total_price := c₂.price * input₂.quantity,
              status := "pending", created_at := now₂ } ∧
      mapGet (EventDetailService.createOrder st₂ input₂ now₂).2.concerts
          input₂.concertId =
        some { c₂ with
                available_tickets :=
                  c₂.available_tickets - input₂.quantity }) ∧
    ((createOrderAction db (some uid) concertId q₃ now₃).1 =
        .ok { id := "order-" ++ toString db.nextOrderId, user_id := uid,
              concert_id := concertId, quantity := q₃,
              total_price := c₃.price * q₃, status := "success",
              created_at := now₃ } ∧
      (createOrderAction db (some uid) concertId q₃ now₃).2.1.concerts.find?
          (fun x => x.id == concertId) =
        some { c₃ with
                available_tickets := c₃.available_tickets - q₃ }) := by
  refine ⟨?_, ?_, ?_⟩
  · simp only [OrderService.createOrder]
    rw [if_neg (by simp [hse]), hget]
    dsimp only
    rw [if_neg (not_lt.mpr havail), if_neg (not_le.mpr hpos),
      if_neg (not_lt.mpr hmax)]
    refine ⟨rfl, ?_⟩
    rw [← hid]
    exact mapGet_mapSet_self st.concerts c.id _
  · have hauth :
        ¬((EventDetailService.checkAuthentication st₂).authenticated = false) := by
      simp [EventDetailService.checkAuthentication, hsession]
    simp only [EventDetailService.createOrder]
    rw [if_neg (by simp [hse₂]), if_neg hauth, hget₂]
    dsimp only
    rw [if_neg (not_le.mpr hpos₂), if_neg (not_lt.mpr havail₂)]
    refine ⟨rfl, ?_⟩
    rw [← hid₂]
    exact mapGet_mapSet_self st₂.concerts c₂.id _
  · have hnl : ¬ (c₃.available_tickets < q₃) := not_lt.mpr havail₃
    simp only [createOrderAction]
    rw [if_neg huid, hfind]
    dsimp only
    rw [if_neg hnl]
    refine ⟨rfl, ?_⟩
    exact find_map_update (fun x => x.id == concertId)
      (fun x => { x with available_tickets := c₃.available_tickets - q₃ })
      (fun a => rfl) db.concerts c₃ hfind

/-- Witness for the amended C1: ordering 2 tickets at price 50 against
10 available succeeds in all three implementations, with total 100 and
availability 8 left. -/
theorem C1_amended_create_success_witness :
    ((0 : Int) < 2 ∧ (2 : Int) ≤ 10 ∧
      mapGet [("c1", (⟨"c1", 50, 10, 10⟩ : Concert))] "c1" =
        some ⟨"c1", 50, 10, 10⟩) ∧
    (((OrderService.createOrder
          (OrderService.State.mk [] [("c1", ⟨"c1", 50, 10, 10⟩)] false
            "Database error" 1) ⟨"c1", 2, "u1"⟩ "t").1 =
        .ok { id := "order-" ++ toString 1, user_id := "u1",
              concert_id := "c1", quantity := 2, total_price := 50 * 2,
              status := "pending", created_at := "t" } ∧
      mapGet (OrderService.createOrder
          (OrderService.State.mk [] [("c1", ⟨"c1", 50, 10, 10⟩)] false
            "Database error" 1) ⟨"c1", 2, "u1"⟩ "t").2.concerts "c1" =
        some { id := "c1", price := 50, total_tickets := 10,
               available_tickets := 10 - 2 }) ∧
    (((EventDetailService.createOrder
          (EventDetailService.State.mk [("c1", ⟨"c1", 50, 10, 10⟩)] []
            (some ⟨"u1", "u@e"⟩) false "Database error" 1)
          ⟨"c1", 2, "u1"⟩ "t").1 =
        .ok { id := "order-" ++ toString 1, user_id := "u1",
              concert_id := "c1", quantity := 2, total_price := 50 * 2,
              status := "pending", created_at := "t" } ∧
      mapGet (EventDetailService.createOrder
          (EventDetailService.State.mk [("c1", ⟨"c1", 50, 10, 10⟩)] []
            (some ⟨"u1", "u@e"⟩) false "Database error" 1)
          ⟨"c1", 2, "u1"⟩ "t").2.concerts "c1" =
        some { id := "c1", price := 50, total_tickets := 10,
               available_tickets := 10 - 2 })) ∧
    (((createOrderAction (Db.mk [⟨"c1", 50, 10, 10⟩] [] 1) (some "u1") "c1"
          2 "t").1 =
        .ok { id := "order-" ++ toString 1, user_id := "u1",
              concert_id := "c1", quantity := 2, total_price := 50 * 2,
              status := "success", created_at := "t" } ∧
      (createOrderAction (Db.mk [⟨"c1", 50, 10, 10⟩] [] 1) (some "u1") "c1"
          2 "t").2.1.concerts.find? (fun x => x.id == "c1") =
        some { id := "c1", price := 50, total_tickets := 10,
               available_tickets := 10 - 2 }))) :=
  ⟨⟨by decide, by decide, by decide⟩,
    C1_amended_create_success
      (OrderService.State.mk [] [("c1", ⟨"c1", 50, 10, 10⟩)] false
        "Database error" 1) ⟨"c1", 2, "u1"⟩ "t" ⟨"c1", 50, 10, 10⟩
      (EventDetailService.State.mk [("c1", ⟨"c1", 50, 10, 10⟩)] []
        (some ⟨"u1", "u@e"⟩) false "Database error" 1) ⟨"c1", 2, "u1"⟩ "t"
      ⟨"c1", 50, 10, 10⟩ ⟨"u1", "u@e"⟩
      (Db.mk [⟨"c1", 50, 10, 10⟩] [] 1) "u1" "c1" "t" 2 ⟨"c1", 50, 10, 10⟩
      rfl (by decide) rfl (by decide) (by decide) (by decide)
      rfl rfl (by decide) rfl (by decide) (by decide)
      (by decide) (by decide) (by decide) (by decide)⟩

/-- **C4, counterexample**: a non-positive quantity against a
non-existent event fails with the event-not-found error, not the
invalid-quantity error: existence is checked before quantity positivity
in `EventDetailService.createOrder`. -/
theorem C4_counterexample_order_of_checks :
    (EventDetailService.createOrder
        (EventDetailService.State.mk [] [] (some ⟨"u1", "u@e"⟩) false
          "Database error" 1) ⟨"c1", 0, "u1"⟩ "t").1 =
      .error "Event not found" :=
  rfl

/-- **C4, amended**: the actual short-circuit orders.
`EventDetailService.createOrder` checks: authentication, event
existence, quantity positivity, availability.
`OrderService.createOrder` checks: event existence, availability,
quantity positivity, the 10-ticket maximum — with no authentication
check at all.  In both, a non-positive quantity against a non-existent
event therefore reports the not-found error. -/
theorem C4_amended_check_order
    (st : EventDetailService.State) (input : EventDetailService.OrderInput)
    (now : String)
    (st₂ : OrderService.State) (input₂ : OrderService.OrderInput)
    (now₂ : String)
    (hse : st.shouldError = false) (hse₂ : st₂.shouldError = false) :
    ((st.session = none →
        (EventDetailService.createOrder st input now).1 =
          .error "Please login to purchase tickets") ∧
      (st.session ≠ none → mapGet st.concerts input.concertId = none →
        (EventDetailService.createOrder st input now).1 =
          .error "Event not found") ∧
      (∀ c, st.session ≠ none →
        mapGet st.concerts input.concertId = some c →
        input.quantity ≤ 0 →
        (EventDetailService.createOrder st input now).1 =
          .error "Pilih jumlah tiket dulu.") ∧
      (∀ c, st.session ≠ none →
        mapGet st.concerts input.concertId = some c →
        0 < input.quantity → c.available_tickets < input.quantity →
        (EventDetailService.createOrder st input now).1 =
          .error "Not enough tickets available")) ∧
    ((mapGet st₂.concerts input₂.concertId = none →
        (OrderService.createOrder st₂ input₂ now₂).1 =
          .error "Concert not found") ∧
      (∀ c, mapGet st₂.concerts input₂.concertId = some c →
        c.available_tickets < input₂.quantity →
        (OrderService.createOrder st₂ input₂ now₂).1 =
          .error "Not enough tickets available") ∧
      (∀ c, mapGet st₂.concerts input₂.concertId = some c →
        input₂.quantity ≤ c.available_tickets → input₂.quantity ≤ 0 →
        (OrderService.createOrder st₂ input₂ now₂).1 =
          .error "Invalid quantity") ∧
      (∀ c, mapGet st₂.concerts input₂.concertId = some c →
        input₂.quantity ≤ c.available_tickets → 0 < input₂.quantity →
        10 < input₂.quantity →
        (OrderService.createOrder st₂ input₂ now₂).1 =
          .error "Maximum 10 tickets per order")) := by
  constructor
  · refine ⟨?_, ?_, ?_, ?_⟩
    · intro hnone
      have hauth :
          (EventDetailService.checkAuthentication st).authenticated = false := by
        simp [EventDetailService.checkAuthentication, hnone]
      simp only [EventDetailService.createOrder]
      rw [if_neg (by simp [hse]), if_pos hauth]
    · intro hsome hget
      obtain ⟨u, hu⟩ := Option.ne_none_iff_exists.mp hsome
      have hauth :
          ¬((EventDetailService.checkAuthentication st).authenticated = false) := by
        simp [EventDetailService.checkAuthentication, ← hu]
      simp only [EventDetailService.createOrder]
      rw [if_neg (by simp [hse]), if_neg hauth, hget]
    · intro c hsome hget hq
      obtain ⟨u, hu⟩ := Option.ne_none_iff_exists.mp hsome
      have hauth :
          ¬((EventDetailService.checkAuthentication st).authenticated = false) := by
        simp [EventDetailService.checkAuthentication, ← hu]
      simp only [EventDetailService.createOrder]
      rw [if_neg (by simp [hse]), if_neg hauth, hget]
      dsimp only
      rw [if_pos hq]
    · intro c hsome hget hq hlt
      obtain ⟨u, hu⟩ := Option.ne_none_iff_exists.mp hsome
      have hauth :
          ¬((EventDetailService.checkAuthentication st).authenticated = false) := by
        simp [EventDetailService.checkAuthentication, ← hu]
      simp only [EventDetailService.createOrder]
      rw [if_neg (by simp [hse]), if_neg hauth, hget]
      dsimp only
      rw [if_neg (not_le.mpr hq), if_pos hlt]
  · refine ⟨?_, ?_, ?_, ?_⟩
    · intro hget
      simp only [OrderService.createOrder]
      rw [if_neg (by simp [hse₂]), hget]
    · intro c hget hlt
      simp only [OrderService.createOrder]
      rw [if_neg (by simp [hse₂]), hget]
      dsimp only
      rw [if_pos hlt]
    · intro c hget havail hq
      simp only [OrderService.createOrder]
      rw [if_neg (by simp [hse₂]), hget]
      dsimp only
      rw [if_neg (not_lt.mpr havail), if_pos hq]
    · intro c hget havail hq hmax
      simp only [OrderService.createOrder]
      rw [if_neg (by simp [hse₂]), hget]
      dsimp only
      rw [if_neg (not_lt.mpr havail), if_neg (not_le.mpr hq), if_pos hmax]

/-- Witness for the amended C4: at concrete states, a missing event with
quantity `0` yields the not-found error in both implementations. -/
theorem C4_amended_check_order_witness :
    ((EventDetailService.State.mk [] [] (some ⟨"u1", "u@e"⟩) false
        "Database error" 1).session ≠ none ∧
      mapGet (EventDetailService.State.mk [] [] (some ⟨"u1", "u@e"⟩) false
        "Database error" 1).concerts "c1" = none ∧
      mapGet (OrderService.State.mk [] [] false "Database error" 1).concerts
        "c1" = none) ∧
    ((EventDetailService.createOrder
        (EventDetailService.State.mk [] [] (some ⟨"u1", "u@e"⟩) false
          "Database error" 1) ⟨"c1", 0, "u1"⟩ "t").1 =
      .error "Event not found" ∧
    (OrderService.createOrder
        (OrderService.State.mk [] [] false "Database error" 1)
        ⟨"c1", 0, "u1"⟩ "t").1 =
      .error "Concert not found") :=
  ⟨⟨by decide, rfl, rfl⟩,
    ((C4_amended_check_order
        (EventDetailService.State.mk [] [] (some ⟨"u1", "u@e"⟩) false
          "Database error" 1) ⟨"c1", 0, "u1"⟩ "t"
        (OrderService.State.mk [] [] false "Database error" 1)
        ⟨"c1", 0, "u1"⟩ "t" rfl rfl).1.2.1 (by decide) rfl),
    ((C4_amended_check_order
        (EventDetailService.State.mk [] [] (some ⟨"u1", "u@e"⟩) false
          "Database error" 1) ⟨"c1", 0, "u1"⟩ "t"
        (OrderService.State.mk [] [] false "Database error" 1)
        ⟨"c1", 0, "u1"⟩ "t" rfl rfl).2.1 rfl)⟩

/-- **C3, counterexample**: the admin `updateOrderStatus` accepts the
self-transition `pending → pending`, which the claimed transition set
excludes. -/
theorem C3_counterexample_admin_self_transition :
    (AdminActions.updateOrderStatus
        (Db.mk [] [⟨"order-1", "u1", "c1", 2, 100, "pending", "t"⟩] 2)
        (some ⟨"a1", "admin"⟩) "order-1" "pending").1 = .ok () ∧
    specAllowedTransition "success" "pending" "pending" = false :=
  ⟨rfl, rfl⟩

/-- **C3, amended**: the admin `updateOrderStatus` accepts exactly
`pending → {pending, success, cancelled}`,
`success → {success, cancelled}` and `cancelled → {cancelled}` (so
self-transitions are allowed and `cancelled` can only be re-asserted),
while `OrderService.updateStatus` accepts exactly
`pending → {completed, cancelled}` (so even `completed → cancelled` is
rejected); every rejected request fails with the cannot-transition
error and leaves the state unchanged. -/
theorem C3_amended_transition_tables
    (db : Db) (u : AdminActions.SessionUser) (oid t : String) (o : Order)
    (st : OrderService.State) (oid₂ t₂ : String) (o₂ : Order)
    (hrole : u.role = "admin")
    (hfind : db.orders.find? (fun x => x.id == oid) = some o)
    (hse : st.shouldError = false)
    (hfind₂ : st.orders.find? (fun x => x.id == oid₂) = some o₂) :
    (((AdminActions.updateOrderStatus db (some u) oid t).1 = .ok () ↔
        adminObservedTransition o.status t = true) ∧
      (adminObservedTransition o.status t = false →
        AdminActions.updateOrderStatus db (some u) oid t =
          (.error ("Cannot change status from \"" ++ o.status ++
            "\" to \"" ++ t ++ "\""), db))) ∧
    (((∃ r, (OrderService.updateStatus st oid₂ t₂).1 = .ok r) ↔
        osObservedTransition o₂.status t₂ = true) ∧
      (osObservedTransition o₂.status t₂ = false →
        OrderService.updateStatus st oid₂ t₂ =
          (.error ("Cannot transition from " ++ o₂.status ++ " to " ++ t₂),
            st))) := by
  have hca : AdminActions.checkAdmin (some u) = .ok () := by
    simp [AdminActions.checkAdmin, hrole]
  constructor
  · simp only [AdminActions.updateOrderStatus]
    rw [hca, hfind]
    dsimp only
    cases htr : AdminActions.transitionAllowed o.status t with
    | true =>
        rw [if_pos rfl]
        have hobs := (admin_transitionAllowed_eq o.status t).mp htr
        constructor
        · simp [hobs]
        · intro hfalse
          rw [hobs] at hfalse
          cases hfalse
    | false =>
        rw [if_neg (by simp)]
        have hobs : adminObservedTransition o.status t = false := by
          cases hobs : adminObservedTransition o.status t with
          | true =>
              have := (admin_transitionAllowed_eq o.status t).mpr hobs
              rw [htr] at this
              cases this
          | false => rfl
        constructor
        · simp [hobs]
        · intro _
          rfl
  · simp only [OrderService.updateStatus]
    rw [if_neg (by simp [hse])]
    obtain ⟨l', hUF⟩ := updateFirst_of_find (fun x => x.id == oid₂)
      (fun x => { x with status := t₂ }) st.orders o₂ hfind₂
    rw [hUF]
    dsimp only
    cases htr : OrderService.transitionAllowed o₂.status t₂ with
    | true =>
        rw [if_pos rfl]
        have hobs := (os_transitionAllowed_eq o₂.status t₂).mp htr
        constructor
        · simp [hobs]
        · intro hfalse
          rw [hobs] at hfalse
          cases hfalse
    | false =>
        rw [if_neg (by simp)]
        have hobs : osObservedTransition o₂.status t₂ = false := by
          cases hobs : osObservedTransition o₂.status t₂ with
          | true =>
              have := (os_transitionAllowed_eq o₂.status t₂).mpr hobs
              rw [htr] at this
              cases this
          | false => rfl
        constructor
        · simp [hobs]
        · intro _
          rfl

/-- Witness for the amended C3: at a concrete database, the admin action
accepts `success → cancelled` while the order-management service rejects
`completed → cancelled` and leaves its state unchanged. -/
theorem C3_amended_transition_tables_witness :
    (("admin" : String) = "admin" ∧
      (Db.mk [] [⟨"order-1", "u1", "c1", 2, 100, "success", "t"⟩] 2).orders.find?
          (fun x => x.id == "order-1") =
        some ⟨"order-1", "u1", "c1", 2, 100, "success", "t"⟩ ∧
      (OrderService.State.mk [⟨"order-1", "u1", "c1", 2, 100, "completed", "t"⟩]
          [] false "Database error" 2).orders.find?
          (fun x => x.id == "order-1") =
        some ⟨"order-1", "u1", "c1", 2, 100, "completed", "t"⟩) ∧
    (((AdminActions.updateOrderStatus
          (Db.mk [] [⟨"order-1", "u1", "c1", 2, 100, "success", "t"⟩] 2)
          (some ⟨"a1", "admin"⟩) "order-1" "cancelled").1 = .ok () ↔
        adminObservedTransition "success" "cancelled" = true) ∧
      (adminObservedTransition "success" "cancelled" = false →
        AdminActions.updateOrderStatus
            (Db.mk [] [⟨"order-1", "u1", "c1", 2, 100, "success", "t"⟩] 2)
            (some ⟨"a1", "admin"⟩) "order-1" "cancelled" =
          (.error ("Cannot change status from \"" ++ "success" ++
            "\" to \"" ++ "cancelled" ++ "\""),
            Db.mk [] [⟨"order-1", "u1", "c1", 2, 100, "success", "t"⟩] 2))) ∧
    (((∃ r, (OrderService.updateStatus
          (OrderService.State.mk
            [⟨"order-1", "u1", "c1", 2, 100, "completed", "t"⟩] [] false
            "Database error" 2) "order-1" "cancelled").1 = .ok r) ↔
        osObservedTransition "completed" "cancelled" = true) ∧
      (osObservedTransition "completed" "cancelled" = false →
        OrderService.updateStatus
            (OrderService.State.mk
              [⟨"order-1", "u1", "c1", 2, 100, "completed", "t"⟩] [] false
              "Database error" 2) "order-1" "cancelled" =
          (.error ("Cannot transition from " ++ "completed" ++ " to " ++
              "cancelled"),
            OrderService.State.mk
              [⟨"order-1", "u1", "c1", 2, 100, "completed", "t"⟩] [] false
              "Database error" 2))) :=
  ⟨⟨rfl, by decide, by decide⟩,
    C3_amended_transition_tables
      (Db.mk [] [⟨"order-1", "u1", "c1", 2, 100, "success", "t"⟩] 2)
      ⟨"a1", "admin"⟩ "order-1" "cancelled"
      ⟨"order-1", "u1", "c1", 2, 100, "success", "t"⟩
      (OrderService.State.mk
        [⟨"order-1", "u1", "c1", 2, 100, "completed", "t"⟩] [] false
        "Database error" 2) "order-1" "cancelled"
      ⟨"order-1", "u1", "c1", 2, 100, "completed", "t"⟩
      rfl (by decide) rfl (by decide)⟩

/-- **C2, counterexample**: the admin `updateOrderStatus` accepts
`pending → cancelled` for an order of quantity 2 but leaves the concerts
table — and hence `available_tickets` — completely unchanged. -/
theorem C2_counterexample_admin_cancel_no_restore :
    (AdminActions.updateOrderStatus
        (Db.mk [⟨"c1", 50, 10, 5⟩]
          [⟨"order-1", "u1", "c1", 2, 100, "pending", "t"⟩] 2)
        (some ⟨"a1", "admin"⟩) "order-1" "cancelled").1 = .ok () ∧
    (AdminActions.updateOrderStatus
        (Db.mk [⟨"c1", 50, 10, 5⟩]
          [⟨"order-1", "u1", "c1", 2, 100, "pending", "t"⟩] 2)
        (some ⟨"a1", "admin"⟩) "order-1" "cancelled").2.concerts =
      [⟨"c1", 50, 10, 5⟩] :=
  ⟨rfl, rfl⟩

/-- **C2, amended**: in `OrderService.updateStatus` the only accepted
transition into `cancelled` is from `pending`, and it increases the
referenced event's `available_tickets` by exactly the order's quantity
(when the event is in the store); the admin `updateOrderStatus`, though
it also accepts `success → cancelled`, never changes the concerts
table. -/
theorem C2_amended_cancel_restore
    (st : OrderService.State) (oid : String) (o : Order) (c : Concert)
    (db : Db) (sess : Option AdminActions.SessionUser) (oid₂ t₂ : String)
    (hse : st.shouldError = false)
    (hfind : st.orders.find? (fun x => x.id == oid) = some o)
    (hst : o.status = "pending")
    (hget : mapGet st.concerts o.concert_id = some c)
    (hid : c.id = o.concert_id) :
    (OrderService.updateStatus st oid "cancelled").1 =
      .ok { o with status := "cancelled" } ∧
    mapGet (OrderService.updateStatus st oid "cancelled").2.concerts
        o.concert_id =
      some { c with
              available_tickets := c.available_tickets + o.quantity } ∧
    (AdminActions.updateOrderStatus db sess oid₂ t₂).2.concerts =
      db.concerts := by
  have htr : OrderService.transitionAllowed o.status "cancelled" = true := by
    rw [hst]; rfl
  refine ⟨?_, ?_, ?_⟩
  · simp only [OrderService.updateStatus]
    rw [if_neg (by simp [hse])]
    obtain ⟨l', hUF⟩ := updateFirst_of_find (fun x => x.id == oid)
      (fun x => { x with status := "cancelled" }) st.orders o hfind
    rw [hUF]
    dsimp only
    rw [if_pos htr]
  · simp only [OrderService.updateStatus]
    rw [if_neg (by simp [hse])]
    obtain ⟨l', hUF⟩ := updateFirst_of_find (fun x => x.id == oid)
      (fun x => { x with status := "cancelled" }) st.orders o hfind
    rw [hUF]
    dsimp only
    rw [if_pos htr]
    have hcc : (("cancelled" : String) == "cancelled") = true := by decide
    dsimp only
    rw [if_pos hcc, hget]
    dsimp only
    rw [← hid]
    exact mapGet_mapSet_self st.concerts c.id _
  · simp only [AdminActions.updateOrderStatus]
    cases hca : AdminActions.checkAdmin sess with
    | error e => rfl
    | ok v =>
        cases hf : db.orders.find? (fun x => x.id == oid₂) with
        | none => rfl
        | some o₃ =>
            dsimp only
            by_cases htr₂ :
                AdminActions.transitionAllowed o₃.status t₂ = true
            · rw [if_pos htr₂]
            · rw [if_neg htr₂]

/-- Witness for the amended C2: cancelling a pending order of quantity 2
raises the stored availability from 5 to 7 in the order-management
service, while the admin action leaves its concerts table unchanged. -/
theorem C2_amended_cancel_restore_witness :
    ((OrderService.State.mk
        [⟨"order-1", "u1", "c1", 2, 100, "pending", "t"⟩]
        [("c1", ⟨"c1", 50, 10, 5⟩)] false "Database error" 2).orders.find?
        (fun x => x.id == "order-1") =
      some ⟨"order-1", "u1", "c1", 2, 100, "pending", "t"⟩ ∧
      mapGet [("c1", (⟨"c1", 50, 10, 5⟩ : Concert))] "c1" =
        some ⟨"c1", 50, 10, 5⟩) ∧
    ((OrderService.updateStatus
        (OrderService.State.mk
          [⟨"order-1", "u1", "c1", 2, 100, "pending", "t"⟩]
          [("c1", ⟨"c1", 50, 10, 5⟩)] false "Database error" 2)
        "order-1" "cancelled").1 =
      .ok { id := "order-1", user_id := "u1", concert_id := "c1",
            quantity := 2, total_price := 100, status := "cancelled",
            created_at := "t" } ∧
    mapGet (OrderService.updateStatus
        (OrderService.State.mk
          [⟨"order-1", "u1", "c1", 2, 100, "pending", "t"⟩]
          [("c1", ⟨"c1", 50, 10, 5⟩)] false "Database error" 2)
        "order-1" "cancelled").2.concerts "c1" =
      some { id := "c1", price := 50, total_tickets := 10,
             available_tickets := 5 + 2 } ∧
    (AdminActions.updateOrderStatus (Db.mk [⟨"c1", 50, 10, 5⟩] [] 1)
        (some ⟨"a1", "admin"⟩) "order-1" "cancelled").2.concerts =
      [⟨"c1", 50, 10, 5⟩]) :=
  ⟨⟨by decide, by decide⟩,
    C2_amended_cancel_restore
      (OrderService.State.mk
        [⟨"order-1", "u1", "c1", 2, 100, "pending", "t"⟩]
        [("c1", ⟨"c1", 50, 10, 5⟩)] false "Database error" 2)
      "order-1" ⟨"order-1", "u1", "c1", 2, 100, "pending", "t"⟩
      ⟨"c1", 50, 10, 5⟩ (Db.mk [⟨"c1", 50, 10, 5⟩] [] 1)
      (some ⟨"a1", "admin"⟩) "order-1" "cancelled"
      rfl (by decide) rfl (by decide) rfl⟩

/-- **C9**: a successful `updateStatus` changes only the status field.
In `OrderService.updateStatus` the ledger is the old ledger with the
found order replaced by `{ ...order, status }` — id, user, event,
quantity, total price and creation timestamp untouched, and all other
orders untouched.  In the admin `updateOrderStatus`, every stored order
keeps its id, user, event, quantity, total price and creation
timestamp. -/
theorem C9_updateStatus_frame
    (st : OrderService.State) (oid t : String) (o : Order)
    (db : Db) (u : AdminActions.SessionUser) (oid₂ t₂ : String)
    (hse : st.shouldError = false)
    (hfind : st.orders.find? (fun x => x.id == oid) = some o)
    (htr : OrderService.transitionAllowed o.status t = true)
    (hrole : u.role = "admin") :
    ((OrderService.updateStatus st oid t).1 = .ok { o with status := t } ∧
      ∃ l₁ l₂, st.orders = l₁ ++ o :: l₂ ∧
        (OrderService.updateStatus st oid t).2.orders =
          l₁ ++ { o with status := t } :: l₂) ∧
    List.Forall₂ (fun x y => y.id = x.id ∧ y.user_id = x.user_id ∧
        y.concert_id = x.concert_id ∧ y.quantity = x.quantity ∧
        y.total_price = x.total_price ∧ y.created_at = x.created_at)
      db.orders
      (AdminActions.updateOrderStatus db (some u) oid₂ t₂).2.orders := by
  constructor
  · simp only [OrderService.updateStatus]
    rw [if_neg (by simp [hse])]
    obtain ⟨l', hUF⟩ := updateFirst_of_find (fun x => x.id == oid)
      (fun x => { x with status := t }) st.orders o hfind
    obtain ⟨_, _, l₁, l₂, hl, hl', _⟩ :=
      updateFirst_decomp _ _ _ _ _ _ hUF
    rw [hUF]
    dsimp only
    rw [if_pos htr]
    exact ⟨rfl, l₁, l₂, hl, hl'⟩
  · have hca : AdminActions.checkAdmin (some u) = .ok () := by
      simp [AdminActions.checkAdmin, hrole]
    simp only [AdminActions.updateOrderStatus]
    rw [hca]
    dsimp only
    cases hf : db.orders.find? (fun x => x.id == oid₂) with
    | none =>
        dsimp only
        exact List.forall₂_same.mpr
          (fun x _ => ⟨rfl, rfl, rfl, rfl, rfl, rfl⟩)
    | some o₃ =>
        dsimp only
        by_cases htr₂ : AdminActions.transitionAllowed o₃.status t₂ = true
        · rw [if_pos htr₂]
          rw [List.forall₂_map_right_iff]
          refine List.forall₂_same.mpr (fun x _ => ?_)
          by_cases hx : (x.id == oid₂) = true
          · rw [if_pos hx]
            exact ⟨rfl, rfl, rfl, rfl, rfl, rfl⟩
          · rw [if_neg hx]
            exact ⟨rfl, rfl, rfl, rfl, rfl, rfl⟩
        · rw [if_neg htr₂]
          exact List.forall₂_same.mpr
            (fun x _ => ⟨rfl, rfl, rfl, rfl, rfl, rfl⟩)

/-- Witness for C9: transitioning a concrete pending order to
`completed` (service) and to `success` (admin) keeps every non-status
field. -/
theorem C9_updateStatus_frame_witness :
    ((OrderService.State.mk
        [⟨"order-1", "u1", "c1", 2, 100, "pending", "t"⟩] [] false
        "Database error" 2).orders.find? (fun x => x.id == "order-1") =
      some ⟨"order-1", "u1", "c1", 2, 100, "pending", "t"⟩ ∧
      OrderService.transitionAllowed "pending" "completed" = true) ∧
    (((OrderService.updateStatus
        (OrderService.State.mk
          [⟨"order-1", "u1", "c1", 2, 100, "pending", "t"⟩] [] false
          "Database error" 2) "order-1" "completed").1 =
      .ok { id := "order-1", user_id := "u1", concert_id := "c1",
            quantity := 2, total_price := 100, status := "completed",
            created_at := "t" } ∧
      ∃ l₁ l₂,
        (OrderService.State.mk
          [⟨"order-1", "u1", "c1", 2, 100, "pending", "t"⟩] [] false
          "Database error" 2).orders =
          l₁ ++ (⟨"order-1", "u1", "c1", 2, 100, "pending", "t"⟩ : Order) :: l₂ ∧
        (OrderService.updateStatus
          (OrderService.State.mk
            [⟨"order-1", "u1", "c1", 2, 100, "pending", "t"⟩] [] false
            "Database error" 2) "order-1" "completed").2.orders =
          l₁ ++
            ({ id := "order-1", user_id := "u1", concert_id := "c1",
               quantity := 2, total_price := 100, status := "completed",
               created_at := "t" } : Order) :: l₂) ∧
    List.Forall₂ (fun x y => y.id = x.id ∧ y.user_id = x.user_id ∧
        y.concert_id = x.concert_id ∧ y.quantity = x.quantity ∧
        y.total_price = x.total_price ∧ y.created_at = x.created_at)
      (Db.mk [] [⟨"order-1", "u1", "c1", 2, 100, "pending", "t"⟩] 2).orders
      (AdminActions.updateOrderStatus
        (Db.mk [] [⟨"order-1", "u1", "c1", 2, 100, "pending", "t"⟩] 2)
        (some ⟨"a1", "admin"⟩) "order-1" "success").2.orders) :=
  ⟨⟨by decide, by decide⟩,
    C9_updateStatus_frame
      (OrderService.State.mk
        [⟨"order-1", "u1", "c1", 2, 100, "pending", "t"⟩] [] false
        "Database error" 2) "order-1" "completed"
      ⟨"order-1", "u1", "c1", 2, 100, "pending", "t"⟩
      (Db.mk [] [⟨"order-1", "u1", "c1", 2, 100, "pending", "t"⟩] 2)
      ⟨"a1", "admin"⟩ "order-1" "success"
      rfl (by decide) (by decide) rfl⟩

/-- **C8, counterexample**: the literal invariant
`0 ≤ available_tickets ≤ total_tickets` alone is not inductive: from a
state satisfying it that also holds a stray pending order of quantity 5
never deducted from availability, one `updateStatus` cancellation pushes
`available_tickets` to 15 > `total_tickets` = 10. -/
theorem C8_counterexample_literal_invariant :
    (∀ p ∈ (OrderService.State.mk
        [⟨"order-1", "u1", "c1", 5, 250, "pending", "t"⟩]
        [("c1", ⟨"c1", 50, 10, 10⟩)] false "Database error" 2).concerts,
      0 ≤ p.2.available_tickets ∧
        p.2.available_tickets ≤ p.2.total_tickets) ∧
    mapGet (runOps
        (OrderService.State.mk
          [⟨"order-1", "u1", "c1", 5, 250, "pending", "t"⟩]
          [("c1", ⟨"c1", 50, 10, 10⟩)] false "Database error" 2)
        [OSOp.update "order-1" "cancelled"]).concerts "c1" =
      some ⟨"c1", 50, 10, 15⟩ ∧
    ¬ ((15 : Int) ≤ 10) := by
  refine ⟨by decide, rfl, by decide⟩

theorem activeQty_nil (cid : String) : activeQty [] cid = 0 := rfl

theorem activeQty_cons (o : Order) (l : List Order) (cid : String) :
    activeQty (o :: l) cid =
      (if (o.concert_id == cid && o.status != "cancelled") = true then
        o.quantity else 0) + activeQty l cid := by
  cases h : (o.concert_id == cid && o.status != "cancelled") with
  | true => simp [activeQty, List.filter_cons, h]
  | false => simp [activeQty, List.filter_cons, h]

theorem activeQty_append (l₁ l₂ : List Order) (cid : String) :
    activeQty (l₁ ++ l₂) cid = activeQty l₁ cid + activeQty l₂ cid := by
  simp [activeQty, List.filter_append]

theorem activeQty_nonneg (l : List Order) (cid : String)
    (h : ∀ o ∈ l, 0 ≤ o.quantity) : 0 ≤ activeQty l cid := by
  induction l with
  | nil => simp [activeQty]
  | cons o tl ih =>
      rw [activeQty_cons]
      have h₀ := h o (by simp)
      have ht := ih (fun x hx => h x (by simp [hx]))
      by_cases hc : (o.concert_id == cid && o.status != "cancelled") = true
      · rw [if_pos hc]; linarith
      · rw [if_neg hc]; linarith

/-- Marking a pending order completed changes no active quantity. -/
theorem activeQty_set_completed (l₁ l₂ : List Order) (o : Order)
    (cid : String) (hpend : o.status = "pending") :
    activeQty (l₁ ++ { o with status := "completed" } :: l₂) cid =
      activeQty (l₁ ++ o :: l₂) cid := by
  rw [activeQty_append, activeQty_append, activeQty_cons, activeQty_cons]
  dsimp only
  rw [hpend]
  have h₁ : (("completed" : String) != "cancelled") = true := by decide
  have h₂ : (("pending" : String) != "cancelled") = true := by decide
  rw [h₁, h₂]

/-- Cancelling a pending order removes its quantity from the active
quantity of its concert. -/
theorem activeQty_set_cancelled (l₁ l₂ : List Order) (o : Order)
    (cid : String) (hpend : o.status = "pending") :
    activeQty (l₁ ++ { o with status := "cancelled" } :: l₂) cid =
      activeQty (l₁ ++ o :: l₂) cid -
        (if (o.concert_id == cid) = true then o.quantity else 0) := by
  rw [activeQty_append, activeQty_append, activeQty_cons, activeQty_cons]
  dsimp only
  rw [hpend]
  have h₁ : (("cancelled" : String) != "cancelled") = false := by decide
  have h₂ : (("pending" : String) != "cancelled") = true := by decide
  rw [h₁, h₂]
  cases hb : (o.concert_id == cid) with
  | true => simp [hb]; ring
  | false => simp [hb]

/-- `OrderService.createOrder` preserves ledger consistency. -/
theorem createOrder_consistent (st : OrderService.State)
    (input : OrderService.OrderInput) (now : String) (h : Consistent st) :
    Consistent (OrderService.createOrder st input now).2 := by
  obtain ⟨hq, hc⟩ := h
  by_cases hse : st.shouldError = true
  · simp only [OrderService.createOrder]
    rw [if_pos hse]
    exact ⟨hq, hc⟩
  · simp only [OrderService.createOrder]
    rw [if_neg hse]
    cases hget : mapGet st.concerts input.concertId with
    | none => exact ⟨hq, hc⟩
    | some c =>
        dsimp only
        by_cases h₁ : c.available_tickets < input.quantity
        · rw [if_pos h₁]; exact ⟨hq, hc⟩
        · rw [if_neg h₁]
          by_cases h₂ : input.quantity ≤ 0
          · rw [if_pos h₂]; exact ⟨hq, hc⟩
          · rw [if_neg h₂]
            by_cases h₃ : input.quantity > 10
            · rw [if_pos h₃]; exact ⟨hq, hc⟩
            · rw [if_neg h₃]
              obtain ⟨hcid, hcav, hcbound⟩ := hc input.concertId c hget
              have hqpos : 0 < input.quantity := not_le.mp h₂
              have hqle : input.quantity ≤ c.available_tickets :=
                not_lt.mp h₁
              refine ⟨?_, ?_⟩
              · intro o ho
                rcases List.mem_append.mp ho with ho | ho
                · exact hq o ho
                · rw [List.mem_singleton] at ho
                  subst ho
                  exact le_of_lt hqpos
              · intro k ck hgetk
                dsimp only at hgetk
                by_cases hk : k = c.id
                · subst hk
                  rw [mapGet_mapSet_self] at hgetk
                  injection hgetk with hck
                  subst hck
                  refine ⟨rfl, by dsimp only; linarith, ?_⟩
                  rw [activeQty_append, activeQty_cons, activeQty_nil]
                  dsimp only
                  have hb : (input.concertId == c.id) = true :=
                    beq_iff_eq.mpr hcid.symm
                  have hcond :
                      (input.concertId == c.id &&
                        (("pending" : String) != "cancelled")) = true := by
                    rw [hb]; decide
                  rw [if_pos hcond, hcid]
                  linarith
                · rw [mapGet_mapSet_ne _ _ _ _ hk] at hgetk
                  obtain ⟨hid', hav', hbound'⟩ := hc k ck hgetk
                  refine ⟨hid', hav', ?_⟩
                  rw [activeQty_append, activeQty_cons, activeQty_nil]
                  dsimp only
                  have hb : (input.concertId == k) = false := by
                    apply beq_eq_false_iff_ne.mpr
                    intro he
                    exact hk (he ▸ hcid).symm
                  have hcond :
                      ¬ ((input.concertId == k &&
                        (("pending" : String) != "cancelled")) = true) := by
                    rw [hb]; decide
                  rw [if_neg hcond]
                  simpa using hbound'

/-- `OrderService.updateStatus` preserves ledger consistency. -/
theorem updateStatus_consistent (st : OrderService.State)
    (oid t : String) (h : Consistent st) :
    Consistent (OrderService.updateStatus st oid t).2 := by
  obtain ⟨hq, hc⟩ := h
  by_cases hse : st.shouldError = true
  · simp only [OrderService.updateStatus]
    rw [if_pos hse]
    exact ⟨hq, hc⟩
  · simp only [OrderService.updateStatus]
    rw [if_neg hse]
    cases hUF : updateFirst (fun x => x.id == oid)
        (fun x => { x with status := t }) st.orders with
    | none => exact ⟨hq, hc⟩
    | some trip =>
        obtain ⟨o, o₂, l'⟩ := trip
        dsimp only
        by_cases htr : OrderService.transitionAllowed o.status t = true
        · rw [if_pos htr]
          obtain ⟨hpo, ho₂, l₁, l₂, hl, hl', hfalse⟩ :=
            updateFirst_decomp _ _ _ _ _ _ hUF
          obtain ⟨hpend, hts⟩ := (os_transitionAllowed_true_iff _ _).mp htr
          have hoq : 0 ≤ o.quantity :=
            hq o (by rw [hl]; exact List.mem_append.mpr (Or.inr (by simp)))
          have hq' : ∀ x ∈ l', 0 ≤ x.quantity := by
            intro x hx
            rw [hl'] at hx
            rcases List.mem_append.mp hx with hx | hx
            · exact hq x (by rw [hl]; exact List.mem_append.mpr (Or.inl hx))
            · rcases List.mem_cons.mp hx with rfl | hx
              · exact hoq
              · exact hq x (by
                  rw [hl]
                  exact List.mem_append.mpr
                    (Or.inr (List.mem_cons_of_mem _ hx)))
          refine ⟨hq', ?_⟩
          intro k ck hgetk
          dsimp only at hgetk
          rcases hts with rfl | rfl
          · -- target status "completed": concerts unchanged
            rw [if_neg (by decide)] at hgetk
            obtain ⟨hid', hav', hbound'⟩ := hc k ck hgetk
            refine ⟨hid', hav', ?_⟩
            rw [hl']
            dsimp only
            rw [activeQty_set_completed _ _ _ _ hpend, ← hl]
            exact hbound'
          · -- target status "cancelled"
            rw [if_pos (by decide)] at hgetk
            cases hgc : mapGet st.concerts o.concert_id with
            | none =>
                rw [hgc] at hgetk
                dsimp only at hgetk
                obtain ⟨hid', hav', hbound'⟩ := hc k ck hgetk
                refine ⟨hid', hav', ?_⟩
                rw [hl']
                dsimp only
                rw [activeQty_set_cancelled _ _ _ _ hpend, ← hl]
                by_cases hbk : (o.concert_id == k) = true
                · rw [if_pos hbk]; linarith
                · rw [if_neg hbk]; simpa using hbound'
            | some cc =>
                rw [hgc] at hgetk
                dsimp only at hgetk
                obtain ⟨hccid, hccav, hccbound⟩ := hc o.concert_id cc hgc
                by_cases hk : k = cc.id
                · subst hk
                  rw [mapGet_mapSet_self] at hgetk
                  injection hgetk with hck
                  subst hck
                  refine ⟨hccid ▸ rfl, by dsimp only; linarith, ?_⟩
                  rw [hl']
                  dsimp only
                  rw [activeQty_set_cancelled _ _ _ _ hpend, ← hl]
                  have hbk : (o.concert_id == cc.id) = true :=
                    beq_iff_eq.mpr hccid.symm
                  rw [if_pos hbk, hccid]
                  linarith
                · rw [mapGet_mapSet_ne _ _ _ _ hk] at hgetk
                  obtain ⟨hid', hav', hbound'⟩ := hc k ck hgetk
                  refine ⟨hid', hav', ?_⟩
                  rw [hl']
                  dsimp only
                  rw [activeQty_set_cancelled _ _ _ _ hpend, ← hl]
                  have hbk : (o.concert_id == k) = false := by
                    apply beq_eq_false_iff_ne.mpr
                    intro he
                    exact hk (he ▸ hccid).symm
                  rw [if_neg (by rw [hbk]; exact Bool.false_ne_true)]
                  simpa using hbound'
        · rw [if_neg htr]
          exact ⟨hq, hc⟩

/-- One workflow operation preserves ledger consistency. -/
theorem applyOp_consistent (st : OrderService.State) (op : OSOp)
    (h : Consistent st) : Consistent (applyOp st op) := by
  cases op with
  | create input now => exact createOrder_consistent st input now h
  | update oid t => exact updateStatus_consistent st oid t h

/-- Every operation sequence preserves ledger consistency. -/
theorem runOps_consistent (ops : List OSOp) :
    ∀ st : OrderService.State, Consistent st → Consistent (runOps st ops) := by
  induction ops with
  | nil => intro st h; exact h
  | cons op rest ih =>
      intro st h
      rw [runOps, List.foldl_cons]
      exact ih (applyOp st op) (applyOp_consistent st op h)

/-- **C8, amended**: the inductive invariant is ledger consistency —
order quantities non-negative, concert bindings keyed by the concert's
id, `0 ≤ available_tickets`, and `available_tickets` plus the quantity
held by non-cancelled orders within `total_tickets`.  It is preserved by
every sequence of `OrderService.createOrder` and
`OrderService.updateStatus` operations, and it implies
`0 ≤ available_tickets ≤ total_tickets` for every stored concert:
availability falls only by a created order's quantity and rises only by
a cancelled pending order's quantity, never below 0 nor above
capacity. -/
theorem C8_amended_consistency_preserved (st : OrderService.State)
    (ops : List OSOp) (h : Consistent st) :
    Consistent (runOps st ops) ∧
    ∀ k c, mapGet (runOps st ops).concerts k = some c →
      0 ≤ c.available_tickets ∧ c.available_tickets ≤ c.total_tickets := by
  have hrun := runOps_consistent ops st h
  refine ⟨hrun, ?_⟩
  intro k c hget
  obtain ⟨hqty, hc⟩ := hrun
  obtain ⟨_, hav, hbound⟩ := hc k c hget
  have hnn : 0 ≤ activeQty (runOps st ops).orders k :=
    activeQty_nonneg _ _ hqty
  exact ⟨hav, by linarith⟩

/-- Witness for the amended C8: a consistent one-concert state stays
consistent, and within capacity, across an order creation followed by
its cancellation. -/
theorem C8_amended_consistency_preserved_witness :
    Consistent (OrderService.State.mk []
      [("c1", ⟨"c1", 50, 10, 10⟩)] false "Database error" 1) ∧
    (Consistent (runOps
        (OrderService.State.mk [] [("c1", ⟨"c1", 50, 10, 10⟩)] false
          "Database error" 1)
        [OSOp.create ⟨"c1", 2, "u1"⟩ "t",
         OSOp.update "order-1" "cancelled"]) ∧
      ∀ k c, mapGet (runOps
          (OrderService.State.mk [] [("c1", ⟨"c1", 50, 10, 10⟩)] false
            "Database error" 1)
          [OSOp.create ⟨"c1", 2, "u1"⟩ "t",
           OSOp.update "order-1" "cancelled"]).concerts k = some c →
        0 ≤ c.available_tickets ∧
          c.available_tickets ≤ c.total_tickets) :=
  have hcons : Consistent (OrderService.State.mk []
      [("c1", ⟨"c1", 50, 10, 10⟩)] false "Database error" 1) := by
    constructor
    · intro o ho
      simp at ho
    · intro k c hget
      rw [mapGet_cons] at hget
      by_cases hb : (("c1" : String) == k) = true
      · rw [if_pos hb] at hget
        obtain rfl : (⟨"c1", 50, 10, 10⟩ : Concert) = c :=
          Option.some.injEq _ _ ▸ hget
      
        obtain rfl : "c1" = k := eq_of_beq hb
        refine ⟨rfl, by decide, ?_⟩
        rw [activeQty_nil]
        decide
      · rw [if_neg hb, mapGet_nil] at hget
        exact absurd hget (by simp)
  ⟨hcons, C8_amended_consistency_preserved
    (OrderService.State.mk [] [("c1", ⟨"c1", 50, 10, 10⟩)] false
      "Database error" 1)
    [OSOp.create ⟨"c1", 2, "u1"⟩ "t", OSOp.update "order-1" "cancelled"]
    hcons⟩
